import Mathlib

/-!
Shallow embedding of `ch7/carla-gym/carla_gym/envs/carla_env.py`
(the Gym-compatible CARLA driving environment adapter).

The module's observable behaviour is modelled as pure Lean functions:
  * operating-system effects (process spawn, process-group kill, sleeps,
    connection attempts) become an explicit `Event` trace;
  * the process-wide registry `live_carla_processes` becomes an explicit
    `World` value threaded through each operation;
  * Python exceptions become `Except PyErr`;
  * external inputs (environment variables, filesystem existence,
    `random.randint`, `os.getpgid`) are passed in as function parameters.
-/

/-- Python exceptions that the module can raise. -/
inductive PyErr where
  /-- `assert` failure at module import (line 22). -/
  | assertionError (msg : String)
  /-- reference to an unbound name, e.g. `RETRIES_ON_ERROR` (line 140). -/
  | nameError (name : String)
  /-- `os.killpg` on a process group that no longer exists. -/
  | processLookupError
  deriving Repr, DecidableEq

/-- The arguments of the `subprocess.Popen` call in `init_server`
(lines 132-137): the argv list, whether `preexec_fn=os.setsid` makes the
child a detached process-group leader, and whether stdout is sent to
`os.devnull`. -/
structure SpawnCall where
  args : List String
  preexec_setsid : Bool
  stdout_devnull : Bool
  deriving Repr, DecidableEq

/-- Observable operating-system effects of the module, in program order. -/
inductive Event where
  /-- `subprocess.Popen(...)` returning a process with the given pid. -/
  | spawned (call : SpawnCall) (pid : Nat)
  /-- `live_carla_processes.add(pgid)` (line 138). -/
  | registeredPgid (pgid : Nat)
  /-- `CarlaClient(host, port)` construction plus `.connect()` (lines 142-143). -/
  | connectAttempt (host : String) (port : Nat)
  /-- `time.sleep(n)` (line 146). -/
  | sleptSeconds (n : Nat)
  /-- `os.killpg(pgid, signal.SIGKILL)` delivered (line 76). -/
  | killedPgid (pgid : Nat)
  deriving Repr, DecidableEq

/-- Process-wide mutable state: the registry `live_carla_processes`
(line 72).  Python's `set` is modelled as a duplicate-free-by-insertion
list; claims about it only use membership and (for `cleanup`) one
iteration order. -/
structure World where
  registry : List Nat
  deriving Repr, DecidableEq

/-- `set.add`: inserts the pgid unless it is already present. -/
def World.addPgid (w : World) (pgid : Nat) : World :=
  if pgid ∈ w.registry then w else { w with registry := w.registry ++ [pgid] }

/-! ## Module import (lines 20-77) -/

/-- Line 20-21: `SERVER_BINARY = os.environ.get("CARLA_SERVER",
os.path.expanduser("~/software/CARLA_0.8.2/CarlaUE4.sh"))`.
`getenv` models `os.environ.get`, `expanduser` models `os.path.expanduser`. -/
def serverBinaryOf (getenv : String → Option String) (expanduser : String → String) : String :=
  (getenv "CARLA_SERVER").getD (expanduser "~/software/CARLA_0.8.2/CarlaUE4.sh")

/-- The five planner commands imported from `.carla.planner.planner`
(lines 27-28).  Their concrete integer values live in the external planner
library; only their identity matters to this module. -/
inductive PlannerCommand where
  | REACH_GOAL | GO_STRAIGHT | TURN_RIGHT | TURN_LEFT | LANE_FOLLOW
  deriving Repr, DecidableEq

/-- Line 31-37: `COMMANDS_ENUM`, mapping planner commands to their
string representation. -/
def COMMANDS_ENUM : PlannerCommand → String
  | .REACH_GOAL => "REACH_GOAL"
  | .GO_STRAIGHT => "GO_STRAIGHT"
  | .TURN_RIGHT => "TURN_RIGHT"
  | .TURN_LEFT => "TURN_LEFT"
  | .LANE_FOLLOW => "LANE_FOLLOW"

/-- The number of entries of the `COMMANDS_ENUM` dict, i.e.
`len(COMMANDS_ENUM)` (line 104). -/
def COMMANDS_ENUM_len : Nat := 5

/-- The value list of the `COMMANDS_ENUM` dict, in declaration order. -/
def commandNames : List String :=
  ["REACH_GOAL", "GO_STRAIGHT", "TURN_RIGHT", "TURN_LEFT", "LANE_FOLLOW"]

/-- Line 40-46: `COMMAND_ORDINAL`, the one-hot index table from command
name to model-facing index; a missing key is a Python `KeyError`,
modelled by `none`. -/
def COMMAND_ORDINAL : String → Option Nat := fun s =>
  if s = "REACH_GOAL" then some 0
  else if s = "GO_STRAIGHT" then some 1
  else if s = "TURN_RIGHT" then some 2
  else if s = "TURN_LEFT" then some 3
  else if s = "LANE_FOLLOW" then some 4
  else none

/-- The parts of `scenarios.json` that the module reads at import
(lines 49-53).  The scenario entries themselves are uninterpreted JSON
payloads, carried as strings: this fragment only stores them. -/
structure ScenarioConfig where
  /-- `scenario_config["city"][1]` (line 51), `"Town2"` in the shipped file. -/
  city1 : String
  /-- `scenario_config["Weather"]["WetNoon"]` (line 52). -/
  weatherWetNoon : String
  /-- `scenario_config["Weather"]["ClearSunset"]` (line 52). -/
  weatherClearSunset : String
  /-- `scenario_config["Lane_Keep_Town2"]` (line 61). -/
  laneKeepTown2 : String
  deriving Repr, DecidableEq

/-- The environment configuration dictionary: the keys of `ENV_CONFIG`
(lines 56-70), which a caller-supplied `config` argument also carries. -/
structure Config where
  enable_planner : Bool
  use_depth_camera : Bool
  discrete_actions : Bool
  server_map : String
  scenarios : List String
  framestack : Nat
  early_terminate_on_collision : Bool
  verbose : Bool
  render_x_res : Nat
  render_y_res : Nat
  x_res : Nat
  y_res : Nat
  seed : Nat
  deriving Repr, DecidableEq

/-- Lines 56-70: the module-level default configuration `ENV_CONFIG`,
built from the loaded scenario file. -/
def ENV_CONFIG (sc : ScenarioConfig) : Config :=
  { enable_planner := true
    use_depth_camera := false
    discrete_actions := true
    server_map := "/Game/Maps/" ++ sc.city1
    scenarios := [sc.laneKeepTown2]
    framestack := 2
    early_terminate_on_collision := true
    verbose := false
    render_x_res := 800
    render_y_res := 600
    x_res := 80
    y_res := 80
    seed := 1 }

/-- State established by a successful import of the module. -/
structure ModuleState where
  SERVER_BINARY : String
  scenarioConfig : ScenarioConfig
  deriving Repr, DecidableEq

/-- Lines 20-77: module import.  Computes `SERVER_BINARY` and asserts the
path exists (line 22) before anything else is defined; on assert failure
no class, no environment and no spawn is reachable.  On success the
importing also creates the empty registry (line 72) and registers the
`atexit` cleanup hook. -/
def moduleInit (getenv : String → Option String) (expanduser : String → String)
    (pathExists : String → Bool) (sc : ScenarioConfig) :
    Except PyErr (ModuleState × World) :=
  let sb := serverBinaryOf getenv expanduser
  if pathExists sb then
    .ok ({ SERVER_BINARY := sb, scenarioConfig := sc }, { registry := [] })
  else
    .error (.assertionError
      "CARLA_SERVER environment variable is not set properly. Please check and retry")

/-! ## `cleanup` (lines 73-77) -/

/-- `os.killpg(pgid, signal.SIGKILL)`: succeeds when the process group
still exists (`pgid ∈ alive`), raises `ProcessLookupError` otherwise. -/
def killpg (alive : List Nat) (pgid : Nat) : Except PyErr Unit :=
  if pgid ∈ alive then .ok () else .error .processLookupError

/-- The `for pgid in live_carla_processes: os.killpg(pgid, SIGKILL)` loop
of `cleanup` (lines 75-76): returns the pgids actually signalled, in
order, and the outcome; an exception aborts the loop at once (there is
no `try`/`except` around the `killpg` call). -/
def cleanupLoop (alive : List Nat) : List Nat → List Nat × Except PyErr Unit
  | [] => ([], .ok ())
  | p :: rest =>
    match killpg alive p with
    | .ok _ =>
      let r := cleanupLoop alive rest
      (p :: r.1, r.2)
    | .error e => ([], .error e)

/-- Lines 73-76: the `atexit`-registered `cleanup` handler.  Iterates the
registry, killing each group; it never mutates `live_carla_processes`,
so the returned world is the input world.  Result: (world after, pgids
killed, outcome). -/
def cleanup (alive : List Nat) (w : World) : World × List Nat × Except PyErr Unit :=
  let r := cleanupLoop alive w.registry
  (w, r.1, r.2)

/-! ## Gym spaces and `CarlaEnv.__init__` (lines 80-126) -/

/-- The subset of `gym.spaces` the module uses.  All Box bounds in the
source (`-1.0`, `1.0`, `0.0`, `255.0`, `-128.0`, `128.0`) are exact
integers; dtype is uniformly `np.float32` and is not modelled.  The one
`Tuple` space the module builds is flat, so it is modelled as a list of
these primitive spaces. -/
inductive Space where
  | box (low high : Int) (shape : List Nat)
  | discrete (n : Nat)
  deriving Repr, DecidableEq

/-- The external `Planner(city)` object (line 90); only the argument it
was constructed with is observable in this fragment. -/
structure Planner where
  city : String
  deriving Repr, DecidableEq

/-- Lines 92-101: the image component of the observation space. -/
def imageSpace (config : Config) : Space :=
  if config.use_depth_camera then
    .box (-1) 1 [config.y_res, config.x_res, 1 * config.framestack]
  else
    .box 0 255 [config.y_res, config.x_res, 3 * config.framestack]

/-- The fields `CarlaEnv.__init__` assigns (lines 87-126).
`server_process` holds the pid of the spawned process when present;
fields that stay `None` until later episode logic (previous measurement,
image, episode id, ...) are modelled as `Option Unit`. -/
structure EnvState where
  config : Config
  city : String
  planner : Option Planner
  observation_space : List Space
  spec_id : String
  _seed : Nat
  server_port : Option Nat
  server_process : Option Nat
  client : Option Nat
  num_steps : Nat
  total_reward : Int
  prev_measurement : Option Unit
  prev_image : Option Unit
  episode_id : Option Unit
  measurements_file : Option Unit
  weather : Option Unit
  scenario : Option Unit
  start_pos : Option Unit
  end_pos : Option Unit
  start_coord : Option Unit
  end_coord : Option Unit
  last_obs : Option Unit
  deriving Repr, DecidableEq

/-- Lines 81-126: the body of `CarlaEnv.__init__(config)`.  Pure: it
reads the module-level `ENV_CONFIG` (for the seed, line 109) and builds
the state; it performs no OS effect. -/
def initEnv (sc : ScenarioConfig) (config : Config) : EnvState :=
  let city := (config.server_map.splitOn "/").getLastD ""
  { config := config
    city := city
    planner := if config.enable_planner then some { city := city } else none
    observation_space :=
      [imageSpace config,
       .discrete COMMANDS_ENUM_len,
       .box (-128) 128 [2]]
    spec_id := "Carla-v0"
    _seed := (ENV_CONFIG sc).seed
    server_port := none
    server_process := none
    client := none
    num_steps := 0
    total_reward := 0
    prev_measurement := none
    prev_image := none
    episode_id := none
    measurements_file := none
    weather := none
    scenario := none
    start_pos := none
    end_pos := none
    start_coord := none
    end_coord := none
    last_obs := none }

/-- `CarlaEnv.__init__` seen as an operation on the process-wide world:
the body (lines 81-126) contains no `Popen`, no registry access and no
connection attempt, so the world passes through unchanged and the event
trace is empty. -/
def envConstruct (w : World) (sc : ScenarioConfig) (config : Config) :
    World × List Event × EnvState :=
  (w, [], initEnv sc config)

/-! ## `CarlaEnv.init_server` (lines 128-146) -/

/-- The argv list of the `Popen` call (lines 133-136). -/
def spawnArgs (serverBinary serverMap : String) (port : Nat) : List String :=
  [serverBinary, serverMap,
   "-windowed", "-ResX=400", "-ResY=300",
   "-carla-server",
   "-carla-world-port=" ++ toString port]

/-- Result of one `init_server` call: the world and environment state
after the call, the OS events it performed, and its outcome. -/
structure InitServerResult where
  world : World
  state : EnvState
  events : List Event
  outcome : Except PyErr Unit
  deriving Repr

/-- Lines 128-146: `CarlaEnv.init_server`.
`randint` models `random.randint` (line 131), `getpgid` models
`os.getpgid` (line 138), `pid` is the pid `Popen` assigns to the child.
Control flow, in source order: choose the port; spawn the server
(detached group leader, stdout to devnull); register the child's process
group id; then evaluate `range(RETRIES_ON_ERROR)` — the name
`RETRIES_ON_ERROR` is bound nowhere in the module, so a `NameError` is
raised before the first loop iteration, hence before any
`CarlaClient`/`connect` attempt.  The side effects made so far persist. -/
def init_server (msd : ModuleState) (w : World) (st : EnvState)
    (randint : Nat → Nat → Nat) (getpgid : Nat → Nat) (pid : Nat) :
    InitServerResult :=
  let port := randint 10000 60000
  let call : SpawnCall :=
    { args := spawnArgs msd.SERVER_BINARY st.config.server_map port
      preexec_setsid := true
      stdout_devnull := true }
  let pgid := getpgid pid
  { world := w.addPgid pgid
    state := { st with server_port := some port, server_process := some pid }
    events := [.spawned call pid, .registeredPgid pgid]
    outcome := .error (.nameError "RETRIES_ON_ERROR") }

/-! ## Helpers -/

/-- Does an event represent a `CarlaClient` construction / `connect` call? -/
def Event.isConnectAttempt : Event → Bool
  | .connectAttempt _ _ => true
  | _ => false

/-- The argv heads (binary paths) of every spawn in an event trace. -/
def spawnedBinaries (events : List Event) : List String :=
  events.filterMap fun e =>
    match e with
    | .spawned call _ => call.args.head?
    | _ => none

/-- The launch command line as the spec words it — a list consisting of
the binary path, the map identifier, the fixed window and resolution
flags, and the world-port flag, and nothing else.  This definition
follows the spec's sentence, for comparison with `spawnArgs`, which is
translated from the code. -/
def specClaimedSpawnArgs (serverBinary serverMap : String) (port : Nat) : List String :=
  [serverBinary, serverMap,
   "-windowed", "-ResX=400", "-ResY=300",
   "-carla-world-port=" ++ toString port]

/-! ## Concrete instances used to instantiate the theorems -/

/-- A concrete scenario configuration (the values `scenarios.json` ships). -/
def sc₀ : ScenarioConfig :=
  { city1 := "Town02"
    weatherWetNoon := "wet_noon"
    weatherClearSunset := "clear_sunset"
    laneKeepTown2 := "lane_keep_town2" }

/-- The default configuration built from `sc₀`. -/
def cfg₀ : Config := ENV_CONFIG sc₀

/-- A freshly constructed environment state. -/
def env₀ : EnvState := initEnv sc₀ cfg₀

/-- A concrete module state, as after a successful import. -/
def mState₀ : ModuleState := { SERVER_BINARY := "/opt/carla/CarlaUE4.sh", scenarioConfig := sc₀ }

/-- A concrete `random.randint` model returning the lower bound. -/
def rand₀ : Nat → Nat → Nat := fun lo _ => lo

theorem World.mem_addPgid_self (w : World) (p : Nat) : p ∈ (w.addPgid p).registry := by
  unfold World.addPgid
  split
  · assumption
  · simp

theorem World.mem_addPgid_of_mem (w : World) (p q : Nat) (h : q ∈ w.registry) :
    q ∈ (w.addPgid p).registry := by
  unfold World.addPgid
  split
  · exact h
  · simp [h]

theorem cleanupLoop_ok (alive l : List Nat) (h : ∀ p ∈ l, p ∈ alive) :
    cleanupLoop alive l = (l, Except.ok ()) := by
  induction l with
  | nil => rfl
  | cons p rest ih =>
    have hp : p ∈ alive := h p (by simp)
    have hr := ih (fun q hq => h q (by simp [hq]))
    simp [cleanupLoop, killpg, hp, hr]

theorem cleanupLoop_killed (alive l : List Nat) :
    (cleanupLoop alive l).1 = l.takeWhile (fun p => decide (p ∈ alive)) := by
  induction l with
  | nil => rfl
  | cons p rest ih =>
    by_cases hp : p ∈ alive
    · simp [cleanupLoop, killpg, hp, List.takeWhile_cons, ih]
    · simp [cleanupLoop, killpg, hp, List.takeWhile_cons]

theorem cleanupLoop_error (alive l : List Nat) (h : ∃ p ∈ l, p ∉ alive) :
    (cleanupLoop alive l).2 = Except.error PyErr.processLookupError := by
  induction l with
  | nil => simp at h
  | cons p rest ih =>
    by_cases hp : p ∈ alive
    · obtain ⟨q, hq, hqa⟩ := h
      rcases List.mem_cons.mp hq with rfl | hq2
      · exact absurd hp hqa
      · have hr := ih ⟨q, hq2, hqa⟩
        simp [cleanupLoop, killpg, hp, hr]
    · simp [cleanupLoop, killpg, hp]

/-! ## Claims -/

/-- C1: every call to `init_server` adds the spawned simulator's process
group id to `live_carla_processes` immediately after the spawn and
before any connection attempt, and no operation of the module
(`__init__`, `init_server`, `cleanup`) ever removes a registered id. -/
theorem C1_pgid_registered_never_removed
    (msd : ModuleState) (w : World) (st : EnvState)
    (randint : Nat → Nat → Nat) (getpgid : Nat → Nat) (pid : Nat)
    (sc : ScenarioConfig) (config : Config) (alive : List Nat) :
    (∃ call, (init_server msd w st randint getpgid pid).events
        = [Event.spawned call pid, Event.registeredPgid (getpgid pid)])
    ∧ getpgid pid ∈ (init_server msd w st randint getpgid pid).world.registry
    ∧ (((init_server msd w st randint getpgid pid).events.all
        fun e => !e.isConnectAttempt) = true)
    ∧ (∀ p, p ∈ w.registry → p ∈ (init_server msd w st randint getpgid pid).world.registry)
    ∧ (envConstruct w sc config).1 = w
    ∧ (cleanup alive w).1 = w := by
  refine ⟨⟨_, rfl⟩, World.mem_addPgid_self w (getpgid pid), rfl,
    fun p hp => World.mem_addPgid_of_mem w (getpgid pid) p hp, rfl, rfl⟩

/-- Witness for C1 at concrete inputs: pgid 5 is registered by the call
and pre-registered pgid 3 survives it. -/
theorem C1_witness :
    5 ∈ (init_server mState₀ ⟨[3]⟩ env₀ rand₀ id 5).world.registry
    ∧ 3 ∈ (init_server mState₀ ⟨[3]⟩ env₀ rand₀ id 5).world.registry :=
  ⟨(C1_pgid_registered_never_removed mState₀ ⟨[3]⟩ env₀ rand₀ id 5 sc₀ cfg₀ []).2.1,
   (C1_pgid_registered_never_removed mState₀ ⟨[3]⟩ env₀ rand₀ id 5 sc₀ cfg₀ []).2.2.2.1
     3 (by decide)⟩

/-- C2 counterexample: with one registered group (pgid 7) that has
already exited, `cleanup` raises `ProcessLookupError` (there is no
`try`/`except` around `os.killpg`), and the registry afterwards is not
empty (`cleanup` never clears the set) — both contradicting the claim. -/
theorem C2_counterexample :
    (cleanup [] ⟨[7]⟩).2.2 = Except.error PyErr.processLookupError
    ∧ (cleanup [] ⟨[7]⟩).1.registry ≠ [] :=
  ⟨rfl, by decide⟩

/-- C2 (amended): `cleanup` signals every registered group up to the
first already-exited one, in iteration order; when every registered
group is alive it kills all of them and raises nothing; when some
registered group has exited it raises `ProcessLookupError` (so the
remaining groups are skipped); and in no case does it clear the
registry. -/
theorem C2_cleanup_behaviour (alive : List Nat) (w : World) :
    (cleanup alive w).1 = w
    ∧ (cleanup alive w).2.1 = w.registry.takeWhile (fun p => decide (p ∈ alive))
    ∧ ((∀ p ∈ w.registry, p ∈ alive) →
        (cleanup alive w).2.1 = w.registry ∧ (cleanup alive w).2.2 = Except.ok ())
    ∧ ((∃ p ∈ w.registry, p ∉ alive) →
        (cleanup alive w).2.2 = Except.error PyErr.processLookupError) := by
  refine ⟨rfl, cleanupLoop_killed alive w.registry, fun h => ?_, fun h => ?_⟩
  · have := cleanupLoop_ok alive w.registry h
    constructor
    · simp [cleanup, this]
    · simp [cleanup, this]
  · exact cleanupLoop_error alive w.registry h

/-- Witness for C2's amended theorem: an all-alive registry is fully
killed; a registry holding a dead group makes `cleanup` raise. -/
theorem C2_cleanup_behaviour_witness :
    (cleanup [7] ⟨[7]⟩).2.1 = [7]
    ∧ (cleanup [] ⟨[7]⟩).2.2 = Except.error PyErr.processLookupError :=
  ⟨((C2_cleanup_behaviour [7] ⟨[7]⟩).2.2.1 (by decide)).1,
   (C2_cleanup_behaviour [] ⟨[7]⟩).2.2.2 ⟨7, by decide, by decide⟩⟩

/-- C3 (code bug): the retry loop of `init_server` (lines 140-146) can
never run — `range(RETRIES_ON_ERROR)` references a name bound nowhere in
the module, so every call raises `NameError` after the spawn and the
registry insertion and before the first `CarlaClient`/`connect` attempt.
Evaluated at a concrete failing input: the outcome is the `NameError`,
zero connection attempts and zero sleeps appear in the trace, and the
claimed behaviour (up to `max_retries` attempts, then the last exception
or an explicit terminal failure) is unreachable. -/
theorem C3_retry_loop_unreachable :
    (init_server mState₀ ⟨[]⟩ env₀ rand₀ id 42).outcome
      = Except.error (PyErr.nameError "RETRIES_ON_ERROR")
    ∧ ((init_server mState₀ ⟨[]⟩ env₀ rand₀ id 42).events.all
        fun e => !e.isConnectAttempt) = true
    ∧ (init_server mState₀ ⟨[]⟩ env₀ rand₀ id 42).events.length = 2 :=
  ⟨rfl, rfl, rfl⟩

/-- C4: the image component of `observation_space` is a box of shape
`(y_res, x_res, 3*framestack)` when `use_depth_camera` is false, and
`(y_res, x_res, 1*framestack)` when it is true. -/
theorem C4_observation_image_shape (sc : ScenarioConfig) (c : Config) :
    (c.use_depth_camera = false →
      (initEnv sc c).observation_space.head?
        = some (Space.box 0 255 [c.y_res, c.x_res, 3 * c.framestack]))
    ∧ (c.use_depth_camera = true →
      (initEnv sc c).observation_space.head?
        = some (Space.box (-1) 1 [c.y_res, c.x_res, 1 * c.framestack])) := by
  constructor <;> intro h <;> simp [initEnv, imageSpace, h]

/-- Witness for C4 at the default configuration (80×80, framestack 2)
and its depth-camera variant. -/
theorem C4_witness :
    (initEnv sc₀ cfg₀).observation_space.head?
      = some (Space.box 0 255 [80, 80, 3 * 2])
    ∧ (initEnv sc₀ { cfg₀ with use_depth_camera := true }).observation_space.head?
      = some (Space.box (-1) 1 [80, 80, 1 * 2]) :=
  ⟨(C4_observation_image_shape sc₀ cfg₀).1 rfl,
   (C4_observation_image_shape sc₀ { cfg₀ with use_depth_camera := true }).2 rfl⟩

/-- C5: when the simulator binary path does not exist, module import
fails with the `assert` at line 22 — before the class, any environment
or any spawn exists; conversely any successfully imported module
carries a binary path that existed, and every spawn `init_server`
performs uses exactly that path as argv[0]. -/
theorem C5_binary_checked_at_import
    (getenv : String → Option String) (expanduser : String → String)
    (pathExists : String → Bool) (sc : ScenarioConfig) :
    (pathExists (serverBinaryOf getenv expanduser) = false →
      moduleInit getenv expanduser pathExists sc
        = Except.error (PyErr.assertionError
            "CARLA_SERVER environment variable is not set properly. Please check and retry"))
    ∧ (∀ msd w, moduleInit getenv expanduser pathExists sc = Except.ok (msd, w) →
        pathExists msd.SERVER_BINARY = true)
    ∧ (∀ msd w st randint getpgid pid,
        spawnedBinaries (init_server msd w st randint getpgid pid).events
          = [msd.SERVER_BINARY]) := by
  refine ⟨fun h => ?_, fun msd w h => ?_, fun msd w st randint getpgid pid => rfl⟩
  · simp [moduleInit, h]
  · simp only [moduleInit] at h
    split at h
    · rename_i hp
      cases h
      exact hp
    · cases h

/-- Witness for C5: a filesystem on which no path exists makes the
module import fail with the assertion error; a filesystem where every path
exists yields a module whose recorded binary passes the check. -/
theorem C5_witness :
    moduleInit (fun _ => none) id (fun _ => false) sc₀
      = Except.error (PyErr.assertionError
          "CARLA_SERVER environment variable is not set properly. Please check and retry")
    ∧ (fun _ => true) mState₀.SERVER_BINARY = true :=
  ⟨(C5_binary_checked_at_import (fun _ => none) id (fun _ => false) sc₀).1 rfl,
   (C5_binary_checked_at_import (fun _ => some "/opt/carla/CarlaUE4.sh") id (fun _ => true) sc₀).2.1
     mState₀ ⟨[]⟩ rfl⟩

/-- C6 counterexample: the actual spawn command line is not the list the
claim enumerates — it additionally carries the `-carla-server` flag
(line 135), which is neither the binary, the map, a window or resolution
flag, nor the world-port flag. -/
theorem C6_counterexample :
    spawnArgs "CarlaUE4.sh" "/Game/Maps/Town02" 10000
      ≠ specClaimedSpawnArgs "CarlaUE4.sh" "/Game/Maps/Town02" 10000
    ∧ "-carla-server" ∈ spawnArgs "CarlaUE4.sh" "/Game/Maps/Town02" 10000
    ∧ "-carla-server" ∉ specClaimedSpawnArgs "CarlaUE4.sh" "/Game/Maps/Town02" 10000 := by
  refine ⟨by decide, by decide, by decide⟩

/-- C6 (amended): every spawn launches the binary as a detached process
group leader with stdout discarded, and its command line consists of the
binary path, the configured map identifier, the fixed window and
resolution flags, a `-carla-server` flag, and a `-carla-world-port` flag
whose port is `random.randint(10000, 60000)`, hence within 10000..60000
for any correct `randint`. -/
theorem C6_spawn_call_shape
    (msd : ModuleState) (w : World) (st : EnvState)
    (randint : Nat → Nat → Nat) (getpgid : Nat → Nat) (pid : Nat)
    (hrand : ∀ lo hi, lo ≤ hi → lo ≤ randint lo hi ∧ randint lo hi ≤ hi) :
    (init_server msd w st randint getpgid pid).events.head?
      = some (Event.spawned
          { args := [msd.SERVER_BINARY, st.config.server_map,
                     "-windowed", "-ResX=400", "-ResY=300",
                     "-carla-server",
                     "-carla-world-port=" ++ toString (randint 10000 60000)]
            preexec_setsid := true
            stdout_devnull := true } pid)
    ∧ 10000 ≤ randint 10000 60000 ∧ randint 10000 60000 ≤ 60000 :=
  ⟨rfl, (hrand 10000 60000 (by norm_num)).1, (hrand 10000 60000 (by norm_num)).2⟩

/-- Witness for C6's amended theorem at concrete inputs, with a
`randint` that returns its lower bound. -/
theorem C6_spawn_call_shape_witness :
    (init_server mState₀ ⟨[]⟩ env₀ rand₀ id 1).events.head?
      = some (Event.spawned
          { args := ["/opt/carla/CarlaUE4.sh", "/Game/Maps/" ++ "Town02",
                     "-windowed", "-ResX=400", "-ResY=300",
                     "-carla-server",
                     "-carla-world-port=" ++ toString 10000]
            preexec_setsid := true
            stdout_devnull := true } 1)
    ∧ 10000 ≤ 10000 ∧ 10000 ≤ 60000 :=
  C6_spawn_call_shape mState₀ ⟨[]⟩ env₀ rand₀ id 1
    (fun lo _ h => ⟨Nat.le_refl lo, h⟩)

/-- C7: `__init__` builds the observation-space descriptors and the
bookkeeping fields but performs no OS effect: the world (registry)
passes through unchanged, the event trace is empty, and `server_port`,
`server_process` and `client` are all `None` afterwards. -/
theorem C7_construction_spawns_nothing (w : World) (sc : ScenarioConfig) (c : Config) :
    (envConstruct w sc c).1 = w
    ∧ (envConstruct w sc c).2.1 = []
    ∧ (envConstruct w sc c).2.2.server_port = none
    ∧ (envConstruct w sc c).2.2.server_process = none
    ∧ (envConstruct w sc c).2.2.client = none
    ∧ (envConstruct w sc c).2.2.observation_space
        = [imageSpace c, Space.discrete COMMANDS_ENUM_len, Space.box (-128) 128 [2]]
    ∧ (envConstruct w sc c).2.2.num_steps = 0
    ∧ (envConstruct w sc c).2.2.total_reward = 0 :=
  ⟨rfl, rfl, rfl, rfl, rfl, rfl, rfl, rfl⟩

/-- C8: `RETRIES_ON_ERROR` is bound nowhere in the module, so every
`init_server` call raises `NameError` after spawning the server and
registering its process group id, and before any connection attempt. -/
theorem C8_init_server_raises_name_error
    (msd : ModuleState) (w : World) (st : EnvState)
    (randint : Nat → Nat → Nat) (getpgid : Nat → Nat) (pid : Nat) :
    (init_server msd w st randint getpgid pid).outcome
      = Except.error (PyErr.nameError "RETRIES_ON_ERROR")
    ∧ Event.registeredPgid (getpgid pid) ∈ (init_server msd w st randint getpgid pid).events
    ∧ getpgid pid ∈ (init_server msd w st randint getpgid pid).world.registry
    ∧ ((init_server msd w st randint getpgid pid).events.all
        fun e => !e.isConnectAttempt) = true :=
  ⟨rfl, by simp [init_server], World.mem_addPgid_self w (getpgid pid), rfl⟩

/-- C9: the stored random seed always comes from the module-level
`ENV_CONFIG` (line 109), never from the `config` argument: changing only
the `seed` entry of a config leaves `_seed` unchanged, and `_seed` is
the default seed 1 for every config. -/
theorem C9_seed_from_module_default (sc : ScenarioConfig) (c : Config) (s : Nat) :
    (initEnv sc { c with seed := s })._seed = (initEnv sc c)._seed
    ∧ (initEnv sc c)._seed = (ENV_CONFIG sc).seed
    ∧ (initEnv sc c)._seed = 1 :=
  ⟨rfl, rfl, rfl⟩

/-- C10: `COMMAND_ORDINAL` is total and injective over the command names
`COMMANDS_ENUM` produces, its indices are exactly 0..4, each index is a
valid value of `Discrete(len(COMMANDS_ENUM))`, and that discrete space
is the second component of every constructed observation space. -/
theorem C10_command_ordinal_total_injective :
    commandNames = List.map COMMANDS_ENUM
      [.REACH_GOAL, .GO_STRAIGHT, .TURN_RIGHT, .TURN_LEFT, .LANE_FOLLOW]
    ∧ commandNames.map COMMAND_ORDINAL = [some 0, some 1, some 2, some 3, some 4]
    ∧ (commandNames.map COMMAND_ORDINAL).Nodup
    ∧ (commandNames.all
        fun s => (COMMAND_ORDINAL s).getD COMMANDS_ENUM_len < COMMANDS_ENUM_len) = true
    ∧ ∀ sc c, (initEnv sc c).observation_space.get? 1
        = some (Space.discrete COMMANDS_ENUM_len) := by
  refine ⟨by decide, by decide, by decide, by decide, fun sc c => rfl⟩
